import Mathlib

/-
Verification of the turf-nearest-neighbor package
(src/packages/turf-nearest-neighbor/index.js) against its specification.

The single source file defines `nearestNeighbor`, which reduces every
feature of a dataset to its centroid, computes for every centroid the
distance to its nearest other centroid, averages those distances, and
attaches the Clark-Evans nearest-neighbor statistics to the resolved
study-area polygon.  The file ends with `export default circle;` even
though no identifier `circle` is declared anywhere in it.

Embedding conventions:
- JavaScript numbers are modelled exactly by `JsNum`: a real number, or
  one of the special values Infinity, -Infinity and NaN, with division,
  subtraction, multiplication and square root following the IEEE rules
  the source relies on (x/0, 0/0, sqrt of a negative, arithmetic with
  infinities).  Real arithmetic stands in for double arithmetic; every
  claim below is about the exact formulas, none is about rounding.
- Fallible evaluation returns `Except JsErr`; `JsErr` has exactly the
  runtime failures the source can produce (a TypeError from using an
  undefined intermediate value, a ReferenceError from an unresolved
  identifier).  The source declares no error of its own.
- The geometry primitives imported from the surrounding turf library
  (bbox, bboxPolygon, centroid, area, distance, nearestPoint) are not
  under src/; each is modelled from the specification and carries a doc
  comment saying so.  Coordinates are planar and kilometre-valued (the
  specification fixes kilometres as the distance unit and uses planar
  distance in its worked example); `area` reports square metres as the
  specification requires, hence the factor 1e6 between the planar
  coordinate area and the reported value.
- The in-place property write `studyArea.properties.nearestNeighborAnalysis = ...`
  is rendered by state passing: the function returns the study-area
  feature with exactly that one property replaced.
- JavaScript object identity in `features.filter(f => f !== feature)` is
  rendered positionally: `centroid` allocates a fresh object per feature,
  so the elements of `features` are pairwise distinct references and the
  filter removes exactly the current index, i.e. `List.eraseIdx`.
-/

namespace TurfNN

/-- Identifiers that occur in the module (import bindings, the declared
function, and the identifier the export statement references). -/
inductive Ident where
  | featureEach
  | featureCollection
  | bboxId
  | bboxPolygonId
  | centroidId
  | areaId
  | nearestPointId
  | distanceId
  | nearestNeighborId
  | circleId
  deriving DecidableEq

/-- Runtime failures the source file can produce.  The source declares no
error type of its own; in particular nothing named InvalidInput or
DegenerateStudyArea exists anywhere in the code. -/
inductive JsErr where
  | typeError
  | referenceError
  deriving DecidableEq

/-- The module-scope bindings of index.js: the eight import bindings
(lines 1-8) and the hoisted function declaration `nearestNeighbor`
(line 26).  `calculateNearestNeighborStatistics` is nested inside
`nearestNeighbor` and is not a module-scope binding; no `circle` is
declared anywhere. -/
def moduleScopeBindings : List Ident :=
  [Ident.featureEach, Ident.featureCollection, Ident.bboxId,
   Ident.bboxPolygonId, Ident.centroidId, Ident.areaId,
   Ident.nearestPointId, Ident.distanceId, Ident.nearestNeighborId]

/-- The identifier referenced by `export default circle;` on line 75. -/
def defaultExportIdent : Ident := Ident.circleId

/-- Evaluating the module resolves the default-export expression: an ES
module evaluates `export default circle;` by reading the binding
`circle`, which fails with a ReferenceError when no such binding is in
scope. -/
def moduleEval : Except JsErr Ident :=
  if defaultExportIdent ∈ moduleScopeBindings then
    Except.ok defaultExportIdent
  else
    Except.error JsErr.referenceError

/-- A JavaScript number: a finite real, an infinity, or NaN. -/
inductive JsNum where
  | fin : ℝ → JsNum
  | inf : JsNum
  | ninf : JsNum
  | nan : JsNum

namespace JsNum

open Classical in
/-- JavaScript division, including x/0 = ±Infinity, 0/0 = NaN,
x/Infinity = 0, Infinity/Infinity = NaN, and NaN propagation. -/
noncomputable def div : JsNum → JsNum → JsNum
  | nan, _ => nan
  | _, nan => nan
  | fin x, fin y =>
      if y = 0 then
        if x = 0 then nan else if 0 < x then inf else ninf
      else fin (x / y)
  | fin _, inf => fin 0
  | fin _, ninf => fin 0
  | inf, fin y => if y < 0 then ninf else inf
  | ninf, fin y => if y < 0 then inf else ninf
  | inf, inf => nan
  | inf, ninf => nan
  | ninf, inf => nan
  | ninf, ninf => nan

/-- JavaScript subtraction with infinities and NaN propagation. -/
noncomputable def sub : JsNum → JsNum → JsNum
  | nan, _ => nan
  | _, nan => nan
  | fin x, fin y => fin (x - y)
  | fin _, inf => ninf
  | fin _, ninf => inf
  | inf, fin _ => inf
  | ninf, fin _ => ninf
  | inf, inf => nan
  | inf, ninf => inf
  | ninf, inf => ninf
  | ninf, ninf => nan

open Classical in
/-- JavaScript multiplication, including 0 * Infinity = NaN and NaN
propagation. -/
noncomputable def mul : JsNum → JsNum → JsNum
  | nan, _ => nan
  | _, nan => nan
  | fin x, fin y => fin (x * y)
  | fin x, inf => if x = 0 then nan else if 0 < x then inf else ninf
  | fin x, ninf => if x = 0 then nan else if 0 < x then ninf else inf
  | inf, fin y => if y = 0 then nan else if 0 < y then inf else ninf
  | ninf, fin y => if y = 0 then nan else if 0 < y then ninf else inf
  | inf, inf => inf
  | inf, ninf => ninf
  | ninf, inf => ninf
  | ninf, ninf => inf

open Classical in
/-- JavaScript Math.sqrt: NaN on negative input, Infinity at Infinity. -/
noncomputable def sqrt : JsNum → JsNum
  | nan => nan
  | inf => inf
  | ninf => nan
  | fin x => if x < 0 then nan else fin (Real.sqrt x)

end JsNum

/-- A planar coordinate pair.  Coordinates are kilometre-valued: the
specification fixes kilometres as the distance unit and uses planar
distance in its worked example. -/
structure Point where
  x : ℝ
  y : ℝ

/-- The nearest-neighbor statistics object built on lines 65-71 of the
source, with exactly its five fields. -/
structure NNStats where
  observedMeanDistance : JsNum
  expectedMeanDistance : JsNum
  nearestNeighborIndex : JsNum
  numberOfPoints : ℕ
  zScore : JsNum

/-- The property map of a feature: the `nearestNeighborAnalysis` key the
source writes, plus all other keys, modelled as an abstract association
list the source never touches. -/
structure Props where
  nearestNeighborAnalysis : Option NNStats
  rest : List (ℕ × ℤ)

/-- A GeoJSON geometry: a point, a line, or a (single-ring) polygon. -/
inductive Geometry where
  | pt : Point → Geometry
  | line : List Point → Geometry
  | poly : List Point → Geometry

/-- A GeoJSON feature: a geometry plus a property map. -/
structure Feature where
  geometry : Geometry
  properties : Props

/-- The `options.studyArea` value: either a polygon feature or a numeric
array (the source checks its length at line 32). -/
inductive StudyAreaOpt where
  | polyFeature : Feature → StudyAreaOpt
  | numArray : List ℝ → StudyAreaOpt

/-- The optional second argument of `nearestNeighbor`. -/
structure Options where
  studyArea : Option StudyAreaOpt

/-- What the local variable `studyArea` holds after lines 29-34: a
polygon feature, or still a raw array when the length-4 check failed. -/
inductive StudyAreaVal where
  | feat : Feature → StudyAreaVal
  | arr : List ℝ → StudyAreaVal

/-- A bounding box, in the order minX, minY, maxX, maxY. -/
structure BBox where
  minX : ℝ
  minY : ℝ
  maxX : ℝ
  maxY : ℝ

/-- The coordinate list of a geometry. -/
def Geometry.coords : Geometry → List Point
  | Geometry.pt p => [p]
  | Geometry.line l => l
  | Geometry.poly l => l

/-- All coordinates of all features of a dataset, in input order. -/
def allCoords (dataset : List Feature) : List Point :=
  dataset.flatMap (fun f => f.geometry.coords)

/-- Modelled from the spec: `planarOrGeodeticDistance(pointA, pointB) ->
float (kilometers)` (`@turf/distance` is not under src/).  Planar
Euclidean distance on kilometre-valued coordinates, the convention of
the worked example of the specification. -/
noncomputable def distance (a b : Point) : ℝ :=
  Real.sqrt ((a.x - b.x) ^ 2 + (a.y - b.y) ^ 2)

/-- Modelled from the spec: `centroid(feature) -> PointFeature`
(`@turf/centroid` is not under src/), the geometric center of the
coordinates of the feature, i.e. their arithmetic mean.  Only the centroid
point matters downstream; the fresh feature wrapper turf allocates
around it carries no information used by the source. -/
noncomputable def centroidPt (f : Feature) : Point :=
  let cs := f.geometry.coords
  ⟨(cs.map Point.x).sum / cs.length, (cs.map Point.y).sum / cs.length⟩

open Classical in
/-- Modelled from the spec: `boundingBox(features) -> [minX,minY,maxX,maxY]`
(`@turf/bbox` is not under src/).  Fold of min/max over every coordinate
of every feature.  The spec does not define the empty dataset; the
all-zero box stands in for the infinite sentinel box of turf there, and no
claim depends on it. -/
noncomputable def bbox (dataset : List Feature) : BBox :=
  match allCoords dataset with
  | [] => ⟨0, 0, 0, 0⟩
  | c :: cs =>
      cs.foldl
        (fun bb p =>
          ⟨min bb.minX p.x, min bb.minY p.y, max bb.maxX p.x, max bb.maxY p.y⟩)
        ⟨c.x, c.y, c.x, c.y⟩

/-- Modelled from the spec: `polygonFromBBox(bbox) -> PolygonFeature`
(`@turf/bbox-polygon` is not under src/): the rectangle ring
low-left, low-right, top-right, top-left, closed, with empty
properties. -/
def bboxPolygon (bb : BBox) : Feature :=
  ⟨Geometry.poly
      [⟨bb.minX, bb.minY⟩, ⟨bb.maxX, bb.minY⟩, ⟨bb.maxX, bb.maxY⟩,
       ⟨bb.minX, bb.maxY⟩, ⟨bb.minX, bb.minY⟩],
    ⟨none, []⟩⟩

/-- Shoelace sum over the consecutive vertex pairs of a closed ring. -/
noncomputable def shoelace (ring : List Point) : ℝ :=
  ((ring.zip ring.tail).map (fun pq => pq.1.x * pq.2.y - pq.2.x * pq.1.y)).sum

/-- Modelled from the spec: `area(polygonFeature) -> float (square
meters)` (`@turf/area` is not under src/).  Planar polygon area of the
ring; coordinates are kilometre-valued, so the square-metre value the
spec prescribes is the planar coordinate area times 1e6.  Non-polygon
geometries have area 0. -/
noncomputable def area (f : Feature) : ℝ :=
  match f.geometry with
  | Geometry.poly ring => |shoelace ring| / 2 * 1000000
  | _ => 0

open Classical in
/-- One step of the nearest-point scan: keep the incumbent unless the
new candidate is strictly closer (turf updates only on
`distanceToPoint < minDist`). -/
noncomputable def nearerOf (p : Point) (best : Option Point) (c : Point) :
    Option Point :=
  match best with
  | none => some c
  | some b => if distance p c < distance p b then some c else some b

/-- Modelled from the spec: `nearestAmong(point, candidateSet) -> point`
(`@turf/nearestPoint` is not under src/).  Linear scan keeping the first
strict minimum, none on an empty candidate set (where the turf search
leaves its best-point variable undefined and the subsequent
use of it fails). -/
noncomputable def nearestPointAmong (p : Point) (cands : List Point) :
    Option Point :=
  cands.foldl (nearerOf p) none

/-- The 4-element array accepted at line 33, read as minX, minY, maxX,
maxY.  Unreachable default for other shapes: the source only converts
arrays of length exactly 4. -/
def listToBBox : List ℝ → BBox
  | [x1, y1, x2, y2] => ⟨x1, y1, x2, y2⟩
  | _ => ⟨0, 0, 0, 0⟩

/-- Lines 29-34: `options.studyArea || bboxPolygon(bbox(dataset))`, then
the Array.isArray / length === 4 conversion.  An array of another length
stays a raw array (and makes the property write at line 49 fail). -/
noncomputable def resolveStudyArea (options : Options)
    (dataset : List Feature) : StudyAreaVal :=
  match options.studyArea with
  | none => StudyAreaVal.feat (bboxPolygon (bbox dataset))
  | some (StudyAreaOpt.polyFeature f) => StudyAreaVal.feat f
  | some (StudyAreaOpt.numArray a) =>
      if a.length = 4 then StudyAreaVal.feat (bboxPolygon (listToBBox a))
      else StudyAreaVal.arr a

/-- Lines 40-44, one element of the `features.map`: for the point at
index `i`, remove it from the candidate array (JavaScript compares the
freshly allocated centroid objects by reference, so
`filter(f => f !== feature)` removes exactly position `i`), find the
nearest remaining point, and measure the distance to it.  An empty
candidate set makes the search come back undefined and the distance
call fail with a TypeError. -/
noncomputable def ndOver (pts : List Point) : List ℕ → Except JsErr (List ℝ)
  | [] => Except.ok []
  | i :: is =>
      match pts.get? i with
      | none => Except.error JsErr.typeError
      | some p =>
          match nearestPointAmong p (pts.eraseIdx i) with
          | none => Except.error JsErr.typeError
          | some q =>
              match ndOver pts is with
              | Except.ok rest => Except.ok (distance p q :: rest)
              | Except.error e => Except.error e

/-- The whole `features.map(...)` of lines 40-44: one nearest-neighbor
distance per input position. -/
noncomputable def nearestDistances (pts : List Point) : Except JsErr (List ℝ) :=
  ndOver pts (List.range pts.length)

/-- Lines 61-72: the Clark-Evans statistics, computed with JavaScript
number semantics exactly as written in the source. -/
noncomputable def calculateNearestNeighborStatistics (n : ℕ)
    (observedMeanDistance theArea : JsNum) : NNStats :=
  let popDensity := JsNum.div (JsNum.fin (n : ℝ)) theArea
  let expectedMeanDistance :=
    JsNum.div (JsNum.fin 1) (JsNum.mul (JsNum.fin 2) (JsNum.sqrt popDensity))
  let variance :=
    JsNum.div (JsNum.fin 0.26136)
      (JsNum.sqrt (JsNum.mul (JsNum.fin (n : ℝ)) popDensity))
  { observedMeanDistance := observedMeanDistance
    expectedMeanDistance := expectedMeanDistance
    nearestNeighborIndex := JsNum.div observedMeanDistance expectedMeanDistance
    numberOfPoints := n
    zScore := JsNum.div (JsNum.sub observedMeanDistance expectedMeanDistance) variance }

/-- Lines 26-51: the whole `nearestNeighbor` function.  The in-place
write `studyArea.properties.nearestNeighborAnalysis = ...` of line 49 is
rendered by returning the study-area feature with exactly that property
replaced; when the resolved study area is still a raw array, reading
`.properties` of an array yields undefined and the write fails. -/
noncomputable def nearestNeighbor (dataset : List Feature)
    (options : Options) : Except JsErr Feature :=
  let studyArea := resolveStudyArea options dataset
  let pts := dataset.map centroidPt
  let n := pts.length
  match nearestDistances pts with
  | Except.error e => Except.error e
  | Except.ok ds =>
      let observedMeanDistance :=
        JsNum.div (JsNum.fin ds.sum) (JsNum.fin (n : ℝ))
      match studyArea with
      | StudyAreaVal.feat f =>
          Except.ok
            { f with
              properties :=
                { f.properties with
                  nearestNeighborAnalysis :=
                    some (calculateNearestNeighborStatistics n
                      observedMeanDistance
                      (JsNum.fin (area f * 0.000001))) } }
      | StudyAreaVal.arr _ => Except.error JsErr.typeError

/-- The statistics record `nearestNeighbor` attaches for a given dataset,
resolved study-area feature, and list of per-point nearest distances. -/
noncomputable def attachedStats (ds : List Feature) (g : Feature)
    (l : List ℝ) : NNStats :=
  calculateNearestNeighborStatistics (ds.map centroidPt).length
    (JsNum.div (JsNum.fin l.sum) (JsNum.fin (((ds.map centroidPt).length : ℕ) : ℝ)))
    (JsNum.fin (area g * 0.000001))

/-- Corner (0,0) of the unit-square worked example in the specification. -/
def p00 : Point := ⟨0, 0⟩

/-- Corner (0,1) of the unit-square worked example. -/
def p01 : Point := ⟨0, 1⟩

/-- Corner (1,0) of the unit-square worked example. -/
def p10 : Point := ⟨1, 0⟩

/-- Corner (1,1) of the unit-square worked example. -/
def p11 : Point := ⟨1, 1⟩

/-- A bare point feature with empty properties. -/
def ptFeature (p : Point) : Feature := ⟨Geometry.pt p, ⟨none, []⟩⟩

/-- The four unit-square corner points as a dataset. -/
def fourPts : List Feature :=
  [ptFeature p00, ptFeature p01, ptFeature p10, ptFeature p11]

/-- The closed rectangle ring of the unit square, in the vertex order
`bboxPolygon` produces. -/
def unitRing : List Point := [p00, p10, p11, p01, p00]

/-- The unit-square study-area polygon (the bounding-box polygon of
`fourPts`). -/
def unitPoly : Feature := ⟨Geometry.poly unitRing, ⟨none, []⟩⟩

/-- The statistics the source computes for the unit-square example:
observed mean 1, expected mean 1/4, index 4, and z-score
(1 - 1/4)/(0.26136/4) = 3/0.26136. -/
noncomputable def unitStats : NNStats :=
  ⟨JsNum.fin 1, JsNum.fin (1 / 4), JsNum.fin 4, 4, JsNum.fin (3 / 0.26136)⟩

/-- The feature returned for the unit-square example: the study-area
polygon carrying the analysis. -/
noncomputable def unitResult : Feature :=
  ⟨Geometry.poly unitRing, ⟨some unitStats, []⟩⟩

/-- The statistics the source computes on an empty dataset: NaN observed
mean (0/0), infinite expected mean (1/0), NaN index and z-score. -/
def emptyStats : NNStats :=
  ⟨JsNum.nan, JsNum.inf, JsNum.nan, 0, JsNum.nan⟩

/-- The feature returned for the empty dataset with the unit-square
study area: no error, NaN and Infinity statistics. -/
def emptyResult : Feature :=
  ⟨Geometry.poly unitRing, ⟨some emptyStats, []⟩⟩

/-- A two-point dataset at distance 1. -/
def twoPts : List Feature := [ptFeature p00, ptFeature p01]

/-- A degenerate study-area polygon whose ring has collapsed to a single
repeated vertex, so its computed area is 0. -/
def degenPoly : Feature := ⟨Geometry.poly [p00, p00, p00], ⟨none, []⟩⟩

/-- The statistics the source computes for `twoPts` over the zero-area
study area: infinite population density, expected mean 0, index and
z-score Infinity. -/
def degenStats : NNStats :=
  ⟨JsNum.fin 1, JsNum.fin 0, JsNum.inf, 2, JsNum.inf⟩

/-- The feature returned for `twoPts` with the zero-area study area. -/
def degenResult : Feature :=
  ⟨Geometry.poly [p00, p00, p00], ⟨some degenStats, []⟩⟩

theorem JsNum.div_fin_fin {x y : ℝ} (hy : y ≠ 0) :
    JsNum.div (JsNum.fin x) (JsNum.fin y) = JsNum.fin (x / y) := by
  simp [JsNum.div, hy]

theorem JsNum.div_fin_zero_pos {x : ℝ} (hx : 0 < x) :
    JsNum.div (JsNum.fin x) (JsNum.fin 0) = JsNum.inf := by
  simp [JsNum.div, hx.ne.symm, hx]

theorem JsNum.div_zero_zero :
    JsNum.div (JsNum.fin 0) (JsNum.fin 0) = JsNum.nan := by
  simp [JsNum.div]

theorem JsNum.div_nan (x : JsNum) : JsNum.div JsNum.nan x = JsNum.nan := by
  cases x <;> simp [JsNum.div]

theorem JsNum.sub_nan (x : JsNum) : JsNum.sub JsNum.nan x = JsNum.nan := by
  cases x <;> simp [JsNum.sub]

theorem JsNum.div_fin_inf (x : ℝ) :
    JsNum.div (JsNum.fin x) JsNum.inf = JsNum.fin 0 := by
  simp [JsNum.div]

theorem JsNum.sub_fin_fin (x y : ℝ) :
    JsNum.sub (JsNum.fin x) (JsNum.fin y) = JsNum.fin (x - y) := by
  simp [JsNum.sub]

theorem JsNum.mul_fin_fin (x y : ℝ) :
    JsNum.mul (JsNum.fin x) (JsNum.fin y) = JsNum.fin (x * y) := by
  simp [JsNum.mul]

theorem JsNum.mul_fin_inf_pos {x : ℝ} (hx : 0 < x) :
    JsNum.mul (JsNum.fin x) JsNum.inf = JsNum.inf := by
  simp [JsNum.mul, hx.ne.symm, hx]

theorem JsNum.sqrt_fin {x : ℝ} (hx : 0 ≤ x) :
    JsNum.sqrt (JsNum.fin x) = JsNum.fin (Real.sqrt x) := by
  simp [JsNum.sqrt, not_lt.mpr hx]

theorem JsNum.sqrt_inf : JsNum.sqrt JsNum.inf = JsNum.inf := by
  simp [JsNum.sqrt]

theorem nearestNeighbor_feat_eq (ds : List Feature) (opts : Options)
    (g : Feature) (l : List ℝ)
    (hsa : resolveStudyArea opts ds = StudyAreaVal.feat g)
    (hnd : nearestDistances (ds.map centroidPt) = Except.ok l) :
    nearestNeighbor ds opts = Except.ok
      { g with
        properties :=
          { g.properties with
            nearestNeighborAnalysis := some (attachedStats ds g l) } } := by
  simp only [nearestNeighbor, attachedStats, hnd, hsa]

theorem nearestNeighbor_poly_eq (ds : List Feature) (q : Feature)
    (l : List ℝ)
    (hnd : nearestDistances (ds.map centroidPt) = Except.ok l) :
    nearestNeighbor ds ⟨some (StudyAreaOpt.polyFeature q)⟩ = Except.ok
      { q with
        properties :=
          { q.properties with
            nearestNeighborAnalysis := some (attachedStats ds q l) } } :=
  nearestNeighbor_feat_eq ds _ q l rfl hnd

theorem nearestNeighbor_ok_inv (ds : List Feature) (opts : Options)
    (f : Feature) (h : nearestNeighbor ds opts = Except.ok f) :
    ∃ g l, resolveStudyArea opts ds = StudyAreaVal.feat g ∧
      nearestDistances (ds.map centroidPt) = Except.ok l ∧
      f = { g with
            properties :=
              { g.properties with
                nearestNeighborAnalysis := some (attachedStats ds g l) } } := by
  cases hnd : nearestDistances (ds.map centroidPt) with
  | error e =>
      have hne : nearestNeighbor ds opts = Except.error e := by
        simp only [nearestNeighbor, hnd]
      rw [hne] at h
      simp at h
  | ok l =>
      cases hsa : resolveStudyArea opts ds with
      | arr a =>
          have hne : nearestNeighbor ds opts = Except.error JsErr.typeError := by
            simp only [nearestNeighbor, hnd, hsa]
          rw [hne] at h
          simp at h
      | feat g =>
          rw [nearestNeighbor_feat_eq ds opts g l hsa hnd] at h
          exact ⟨g, l, rfl, rfl, ((Except.ok.injEq _ _).mp h).symm⟩

theorem sqrt2_ge_one : (1 : ℝ) ≤ Real.sqrt 2 := by
  rw [← Real.sqrt_one]
  exact Real.sqrt_le_sqrt (by norm_num)

theorem one_lt_sqrt2 : (1 : ℝ) < Real.sqrt 2 := by
  rw [← Real.sqrt_one]
  exact Real.sqrt_lt_sqrt (by norm_num) (by norm_num)

theorem distance_nonneg (a b : Point) : 0 ≤ distance a b :=
  Real.sqrt_nonneg _

theorem distance_self (a : Point) : distance a a = 0 := by
  simp [distance]

theorem d_00_01 : distance p00 p01 = 1 := by
  rw [distance, show (p00.x - p01.x) ^ 2 + (p00.y - p01.y) ^ 2 = 1 by
    norm_num [p00, p01]]
  exact Real.sqrt_one

theorem d_00_10 : distance p00 p10 = 1 := by
  rw [distance, show (p00.x - p10.x) ^ 2 + (p00.y - p10.y) ^ 2 = 1 by
    norm_num [p00, p10]]
  exact Real.sqrt_one

theorem d_00_11 : distance p00 p11 = Real.sqrt 2 := by
  rw [distance, show (p00.x - p11.x) ^ 2 + (p00.y - p11.y) ^ 2 = 2 by
    norm_num [p00, p11]]

theorem d_01_00 : distance p01 p00 = 1 := by
  rw [distance, show (p01.x - p00.x) ^ 2 + (p01.y - p00.y) ^ 2 = 1 by
    norm_num [p01, p00]]
  exact Real.sqrt_one

theorem d_01_10 : distance p01 p10 = Real.sqrt 2 := by
  rw [distance, show (p01.x - p10.x) ^ 2 + (p01.y - p10.y) ^ 2 = 2 by
    norm_num [p01, p10]]

theorem d_01_11 : distance p01 p11 = 1 := by
  rw [distance, show (p01.x - p11.x) ^ 2 + (p01.y - p11.y) ^ 2 = 1 by
    norm_num [p01, p11]]
  exact Real.sqrt_one

theorem d_10_00 : distance p10 p00 = 1 := by
  rw [distance, show (p10.x - p00.x) ^ 2 + (p10.y - p00.y) ^ 2 = 1 by
    norm_num [p10, p00]]
  exact Real.sqrt_one

theorem d_10_01 : distance p10 p01 = Real.sqrt 2 := by
  rw [distance, show (p10.x - p01.x) ^ 2 + (p10.y - p01.y) ^ 2 = 2 by
    norm_num [p10, p01]]

theorem d_10_11 : distance p10 p11 = 1 := by
  rw [distance, show (p10.x - p11.x) ^ 2 + (p10.y - p11.y) ^ 2 = 1 by
    norm_num [p10, p11]]
  exact Real.sqrt_one

theorem d_11_00 : distance p11 p00 = Real.sqrt 2 := by
  rw [distance, show (p11.x - p00.x) ^ 2 + (p11.y - p00.y) ^ 2 = 2 by
    norm_num [p11, p00]]

theorem d_11_01 : distance p11 p01 = 1 := by
  rw [distance, show (p11.x - p01.x) ^ 2 + (p11.y - p01.y) ^ 2 = 1 by
    norm_num [p11, p01]]
  exact Real.sqrt_one

theorem d_11_10 : distance p11 p10 = 1 := by
  rw [distance, show (p11.x - p10.x) ^ 2 + (p11.y - p10.y) ^ 2 = 1 by
    norm_num [p11, p10]]
  exact Real.sqrt_one

theorem centroidPt_ptFeature (p : Point) : centroidPt (ptFeature p) = p := by
  cases p with
  | mk px py => simp [centroidPt, ptFeature, Geometry.coords]

theorem np_p00 : nearestPointAmong p00 [p01, p10, p11] = some p01 := by
  have hn1 : ¬ Real.sqrt 2 < 1 := not_lt.mpr sqrt2_ge_one
  simp [nearestPointAmong, nearerOf, d_00_01, d_00_10, d_00_11, hn1]

theorem np_p01 : nearestPointAmong p01 [p00, p10, p11] = some p00 := by
  have hn1 : ¬ Real.sqrt 2 < 1 := not_lt.mpr sqrt2_ge_one
  simp [nearestPointAmong, nearerOf, d_01_00, d_01_10, d_01_11, hn1]

theorem np_p10 : nearestPointAmong p10 [p00, p01, p11] = some p00 := by
  have hn1 : ¬ Real.sqrt 2 < 1 := not_lt.mpr sqrt2_ge_one
  simp [nearestPointAmong, nearerOf, d_10_00, d_10_01, d_10_11, hn1]

theorem np_p11 : nearestPointAmong p11 [p00, p01, p10] = some p01 := by
  have h1 : (1 : ℝ) < Real.sqrt 2 := one_lt_sqrt2
  simp [nearestPointAmong, nearerOf, d_11_00, d_11_01, d_11_10, h1]

theorem nd_four :
    nearestDistances [p00, p01, p10, p11] = Except.ok [1, 1, 1, 1] := by
  have g0 : ([p00, p01, p10, p11] : List Point).get? 0 = some p00 := rfl
  have g1 : ([p00, p01, p10, p11] : List Point).get? 1 = some p01 := rfl
  have g2 : ([p00, p01, p10, p11] : List Point).get? 2 = some p10 := rfl
  have g3 : ([p00, p01, p10, p11] : List Point).get? 3 = some p11 := rfl
  have e0 : ([p00, p01, p10, p11] : List Point).eraseIdx 0 = [p01, p10, p11] := rfl
  have e1 : ([p00, p01, p10, p11] : List Point).eraseIdx 1 = [p00, p10, p11] := rfl
  have e2 : ([p00, p01, p10, p11] : List Point).eraseIdx 2 = [p00, p01, p11] := rfl
  have e3 : ([p00, p01, p10, p11] : List Point).eraseIdx 3 = [p00, p01, p10] := rfl
  show ndOver [p00, p01, p10, p11] (List.range 4) = Except.ok [1, 1, 1, 1]
  rw [show List.range 4 = [0, 1, 2, 3] from rfl]
  simp only [ndOver, g0, g1, g2, g3, e0, e1, e2, e3,
    np_p00, np_p01, np_p10, np_p11, d_00_01, d_01_00, d_10_00, d_11_01]

theorem map_centroid_four : fourPts.map centroidPt = [p00, p01, p10, p11] := by
  simp only [fourPts, List.map_cons, List.map_nil, centroidPt_ptFeature]

theorem bbox_four : bbox fourPts = ⟨0, 0, 1, 1⟩ := by
  have hac : allCoords fourPts = [p00, p01, p10, p11] := rfl
  simp only [bbox, hac, List.foldl_cons, List.foldl_nil, p00, p01, p10, p11]
  norm_num [min_def, max_def]

theorem shoelace_unit : shoelace unitRing = 2 := by
  have hz : unitRing.zip unitRing.tail =
      [(p00, p10), (p10, p11), (p11, p01), (p01, p00)] := rfl
  simp only [shoelace, hz, List.map_cons, List.map_nil, List.sum_cons,
    List.sum_nil, p00, p01, p10, p11]
  norm_num

theorem area_unit : area unitPoly = 1000000 := by
  simp only [area, unitPoly]
  rw [shoelace_unit, show |(2 : ℝ)| = 2 from abs_of_nonneg (by norm_num)]
  norm_num

theorem attached_unit : attachedStats fourPts unitPoly [1, 1, 1, 1] = unitStats := by
  have hlen : (fourPts.map centroidPt).length = 4 := rfl
  have hsum : ([1, 1, 1, 1] : List ℝ).sum = 4 := by norm_num
  have harea : area unitPoly * 0.000001 = 1 := by rw [area_unit]; norm_num
  have s4 : Real.sqrt 4 = 2 := by
    rw [show (4 : ℝ) = 2 ^ 2 by norm_num]
    exact Real.sqrt_sq (by norm_num)
  have s16 : Real.sqrt 16 = 4 := by
    rw [show (16 : ℝ) = 4 ^ 2 by norm_num]
    exact Real.sqrt_sq (by norm_num)
  have hobs : JsNum.div (JsNum.fin (([1, 1, 1, 1] : List ℝ).sum))
      (JsNum.fin ((4 : ℕ) : ℝ)) = JsNum.fin 1 := by
    rw [hsum, JsNum.div_fin_fin (by norm_num : ((4 : ℕ) : ℝ) ≠ 0)]
    norm_num
  have hpd : JsNum.div (JsNum.fin ((4 : ℕ) : ℝ)) (JsNum.fin 1) = JsNum.fin 4 := by
    rw [JsNum.div_fin_fin one_ne_zero]
    norm_num
  have hsq : JsNum.sqrt (JsNum.fin 4) = JsNum.fin 2 := by
    rw [JsNum.sqrt_fin (by norm_num : (0 : ℝ) ≤ 4), s4]
  have hmul : JsNum.mul (JsNum.fin 2) (JsNum.fin 2) = JsNum.fin 4 := by
    rw [JsNum.mul_fin_fin]
    norm_num
  have hexp : JsNum.div (JsNum.fin 1) (JsNum.fin 4) = JsNum.fin (1 / 4) := by
    rw [JsNum.div_fin_fin (by norm_num : (4 : ℝ) ≠ 0)]
  have hnp : JsNum.mul (JsNum.fin ((4 : ℕ) : ℝ)) (JsNum.fin 4) = JsNum.fin 16 := by
    rw [JsNum.mul_fin_fin]
    norm_num
  have hsq16 : JsNum.sqrt (JsNum.fin 16) = JsNum.fin 4 := by
    rw [JsNum.sqrt_fin (by norm_num : (0 : ℝ) ≤ 16), s16]
  have hvar : JsNum.div (JsNum.fin 0.26136) (JsNum.fin 4) =
      JsNum.fin (0.26136 / 4) := by
    rw [JsNum.div_fin_fin (by norm_num : (4 : ℝ) ≠ 0)]
  have hidx : JsNum.div (JsNum.fin 1) (JsNum.fin (1 / 4)) = JsNum.fin 4 := by
    rw [JsNum.div_fin_fin (by norm_num : (1 / 4 : ℝ) ≠ 0)]
    norm_num
  have hsub : JsNum.sub (JsNum.fin 1) (JsNum.fin (1 / 4)) = JsNum.fin (3 / 4) := by
    rw [JsNum.sub_fin_fin]
    norm_num
  have hz : JsNum.div (JsNum.fin (3 / 4)) (JsNum.fin (0.26136 / 4)) =
      JsNum.fin (3 / 0.26136) := by
    rw [JsNum.div_fin_fin (by norm_num : (0.26136 / 4 : ℝ) ≠ 0)]
    norm_num
  unfold attachedStats
  rw [hlen, harea, hobs]
  simp only [calculateNearestNeighborStatistics, hpd, hsq, hmul, hexp, hnp,
    hsq16, hvar, hidx, hsub, hz, unitStats]

theorem eval_unitSquare :
    nearestNeighbor fourPts ⟨none⟩ = Except.ok unitResult := by
  have hsa : resolveStudyArea ⟨none⟩ fourPts = StudyAreaVal.feat unitPoly := by
    show StudyAreaVal.feat (bboxPolygon (bbox fourPts)) =
      StudyAreaVal.feat unitPoly
    rw [bbox_four]
    rfl
  have hnd : nearestDistances (fourPts.map centroidPt) =
      Except.ok [1, 1, 1, 1] := by
    rw [map_centroid_four]
    exact nd_four
  rw [nearestNeighbor_feat_eq fourPts ⟨none⟩ unitPoly [1, 1, 1, 1] hsa hnd,
    attached_unit]
  rfl

theorem eval_unitSquare_poly :
    nearestNeighbor fourPts ⟨some (StudyAreaOpt.polyFeature unitPoly)⟩ =
      Except.ok unitResult := by
  have hnd : nearestDistances (fourPts.map centroidPt) =
      Except.ok [1, 1, 1, 1] := by
    rw [map_centroid_four]
    exact nd_four
  rw [nearestNeighbor_poly_eq fourPts unitPoly [1, 1, 1, 1] hnd, attached_unit]
  rfl

/-- C4: on the four points (0,0),(0,1),(1,0),(1,1) with the study area
resolved to their bounding-box polygon (computed area 1 square
kilometre, matching the kilometre distance unit), the function yields
observedMeanDistance 1, expectedMeanDistance 0.25,
nearestNeighborIndex 4, and a population density of 4 points per square
kilometre. -/
theorem C4_unit_square_worked_example :
    nearestNeighbor fourPts ⟨none⟩ = Except.ok unitResult ∧
    unitStats.observedMeanDistance = JsNum.fin 1 ∧
    unitStats.expectedMeanDistance = JsNum.fin 0.25 ∧
    unitStats.nearestNeighborIndex = JsNum.fin 4 ∧
    area unitPoly * 0.000001 = 1 ∧
    JsNum.div (JsNum.fin 4) (JsNum.fin (area unitPoly * 0.000001)) =
      JsNum.fin 4 := by
  refine ⟨eval_unitSquare, rfl, ?_, rfl, ?_, ?_⟩
  · show JsNum.fin (1 / 4) = JsNum.fin 0.25
    norm_num
  · rw [area_unit]
    norm_num
  · rw [show area unitPoly * 0.000001 = 1 from by rw [area_unit]; norm_num,
      JsNum.div_fin_fin one_ne_zero]
    norm_num

theorem attached_empty : attachedStats [] unitPoly [] = emptyStats := by
  have hlen : (([] : List Feature).map centroidPt).length = 0 := rfl
  have harea : area unitPoly * 0.000001 = 1 := by rw [area_unit]; norm_num
  have hsum : (([] : List ℝ)).sum = 0 := rfl
  have hobs : JsNum.div (JsNum.fin (([] : List ℝ).sum))
      (JsNum.fin ((0 : ℕ) : ℝ)) = JsNum.nan := by
    rw [hsum, show ((0 : ℕ) : ℝ) = 0 from Nat.cast_zero, JsNum.div_zero_zero]
  have hpd : JsNum.div (JsNum.fin ((0 : ℕ) : ℝ)) (JsNum.fin 1) =
      JsNum.fin 0 := by
    rw [JsNum.div_fin_fin one_ne_zero]
    norm_num
  have hsq0 : JsNum.sqrt (JsNum.fin 0) = JsNum.fin 0 := by
    rw [JsNum.sqrt_fin le_rfl, Real.sqrt_zero]
  have hmul20 : JsNum.mul (JsNum.fin 2) (JsNum.fin 0) = JsNum.fin 0 := by
    rw [JsNum.mul_fin_fin]
    norm_num
  have hexp : JsNum.div (JsNum.fin 1) (JsNum.fin 0) = JsNum.inf :=
    JsNum.div_fin_zero_pos one_pos
  have hmul00 : JsNum.mul (JsNum.fin ((0 : ℕ) : ℝ)) (JsNum.fin 0) =
      JsNum.fin 0 := by
    rw [JsNum.mul_fin_fin]
    norm_num
  have hvar : JsNum.div (JsNum.fin 0.26136) (JsNum.fin 0) = JsNum.inf :=
    JsNum.div_fin_zero_pos (by norm_num)
  unfold attachedStats
  rw [hlen, harea, hobs]
  simp only [calculateNearestNeighborStatistics, hpd, hsq0, hmul20, hexp,
    hmul00, hvar, JsNum.div_nan, JsNum.sub_nan, emptyStats]

theorem eval_empty :
    nearestNeighbor [] ⟨some (StudyAreaOpt.polyFeature unitPoly)⟩ =
      Except.ok emptyResult := by
  rw [nearestNeighbor_poly_eq [] unitPoly [] rfl, attached_empty]
  rfl

theorem shoelace_degen : shoelace [p00, p00, p00] = 0 := by
  have hz : ([p00, p00, p00] : List Point).zip
      ([p00, p00, p00] : List Point).tail = [(p00, p00), (p00, p00)] := rfl
  simp only [shoelace, hz, List.map_cons, List.map_nil, List.sum_cons,
    List.sum_nil, p00]
  norm_num

theorem area_degen : area degenPoly = 0 := by
  simp only [area, degenPoly]
  rw [shoelace_degen]
  norm_num

theorem nd_two : nearestDistances [p00, p01] = Except.ok [1, 1] := by
  have g0 : ([p00, p01] : List Point).get? 0 = some p00 := rfl
  have g1 : ([p00, p01] : List Point).get? 1 = some p01 := rfl
  have e0 : ([p00, p01] : List Point).eraseIdx 0 = [p01] := rfl
  have e1 : ([p00, p01] : List Point).eraseIdx 1 = [p00] := rfl
  have hn0 : nearestPointAmong p00 [p01] = some p01 := rfl
  have hn1 : nearestPointAmong p01 [p00] = some p00 := rfl
  show ndOver [p00, p01] (List.range 2) = Except.ok [1, 1]
  rw [show List.range 2 = [0, 1] from rfl]
  simp only [ndOver, g0, g1, e0, e1, hn0, hn1, d_00_01, d_01_00]

theorem map_centroid_two : twoPts.map centroidPt = [p00, p01] := by
  simp only [twoPts, List.map_cons, List.map_nil, centroidPt_ptFeature]

theorem attached_degen : attachedStats twoPts degenPoly [1, 1] = degenStats := by
  have hlen : (twoPts.map centroidPt).length = 2 := rfl
  have harea : area degenPoly * 0.000001 = 0 := by rw [area_degen]; norm_num
  have hsum : ([1, 1] : List ℝ).sum = 2 := by norm_num
  have hobs : JsNum.div (JsNum.fin (([1, 1] : List ℝ).sum))
      (JsNum.fin ((2 : ℕ) : ℝ)) = JsNum.fin 1 := by
    rw [hsum, JsNum.div_fin_fin (by norm_num : ((2 : ℕ) : ℝ) ≠ 0)]
    norm_num
  have hpd : JsNum.div (JsNum.fin ((2 : ℕ) : ℝ)) (JsNum.fin 0) = JsNum.inf :=
    JsNum.div_fin_zero_pos (by norm_num)
  have hmul2inf : JsNum.mul (JsNum.fin 2) JsNum.inf = JsNum.inf :=
    JsNum.mul_fin_inf_pos (by norm_num)
  have hmulninf : JsNum.mul (JsNum.fin ((2 : ℕ) : ℝ)) JsNum.inf = JsNum.inf :=
    JsNum.mul_fin_inf_pos (by norm_num)
  have hexp : JsNum.div (JsNum.fin 1) JsNum.inf = JsNum.fin 0 :=
    JsNum.div_fin_inf 1
  have hvar : JsNum.div (JsNum.fin 0.26136) JsNum.inf = JsNum.fin 0 :=
    JsNum.div_fin_inf _
  have hidx : JsNum.div (JsNum.fin 1) (JsNum.fin 0) = JsNum.inf :=
    JsNum.div_fin_zero_pos one_pos
  have hsub : JsNum.sub (JsNum.fin 1) (JsNum.fin 0) = JsNum.fin 1 := by
    rw [JsNum.sub_fin_fin]
    norm_num
  unfold attachedStats
  rw [hlen, harea, hobs]
  simp only [calculateNearestNeighborStatistics, hpd, JsNum.sqrt_inf,
    hmul2inf, hmulninf, hexp, hvar, hidx, hsub, degenStats]

theorem eval_degen :
    nearestNeighbor twoPts ⟨some (StudyAreaOpt.polyFeature degenPoly)⟩ =
      Except.ok degenResult := by
  have hnd : nearestDistances (twoPts.map centroidPt) = Except.ok [1, 1] := by
    rw [map_centroid_two]
    exact nd_two
  rw [nearestNeighbor_poly_eq twoPts degenPoly [1, 1] hnd, attached_degen]
  rfl

/-- C2 counterexample: on the empty dataset with an explicit study area
the function raises no error at all: it returns the study-area polygon
with an attached statistics object whose observedMeanDistance,
nearestNeighborIndex and zScore are NaN and whose expectedMeanDistance
is Infinity, contradicting both halves of the claim (no explicit
InvalidInput error exists anywhere in the code, and NaN/Infinity fields
are returned). -/
theorem C2_no_error_on_empty_dataset :
    nearestNeighbor [] ⟨some (StudyAreaOpt.polyFeature unitPoly)⟩ =
      Except.ok emptyResult ∧
    emptyStats.observedMeanDistance = JsNum.nan ∧
    emptyStats.expectedMeanDistance = JsNum.inf ∧
    emptyStats.nearestNeighborIndex = JsNum.nan ∧
    emptyStats.zScore = JsNum.nan :=
  ⟨eval_empty, rfl, rfl, rfl, rfl⟩

/-- C2 amended: the function performs no size validation.  A one-feature
dataset makes the nearest-point search run over an empty candidate set
and the call dies with a TypeError, not an InvalidInput error; the
empty dataset produces no error at all and returns statistics with NaN
observed mean, index and z-score and infinite expected mean. -/
theorem C2_unvalidated_small_datasets (f p : Feature) :
    nearestNeighbor [f] ⟨some (StudyAreaOpt.polyFeature p)⟩ =
      Except.error JsErr.typeError ∧
    nearestNeighbor [] ⟨some (StudyAreaOpt.polyFeature unitPoly)⟩ =
      Except.ok emptyResult := by
  constructor
  · have hnd : nearestDistances ([f].map centroidPt) =
        Except.error JsErr.typeError := rfl
    simp only [nearestNeighbor, hnd]
  · exact eval_empty

/-- C6 counterexample: a resolved study area with computed area 0 is not
rejected: on a two-point dataset the function returns normally with an
infinite population density folded into the statistics
(expectedMeanDistance 0, nearestNeighborIndex and zScore Infinity)
instead of surfacing a DegenerateStudyArea error before the formula
runs. -/
theorem C6_no_error_on_zero_area :
    area degenPoly = 0 ∧
    nearestNeighbor twoPts ⟨some (StudyAreaOpt.polyFeature degenPoly)⟩ =
      Except.ok degenResult ∧
    degenStats.expectedMeanDistance = JsNum.fin 0 ∧
    degenStats.nearestNeighborIndex = JsNum.inf ∧
    degenStats.zScore = JsNum.inf :=
  ⟨area_degen, eval_degen, rfl, rfl, rfl⟩

/-- C6 amended: a zero-area resolved study area is never detected; the
statistics formula is invoked anyway, the population density divides by
zero and becomes Infinity, and the attached statistics carry
expectedMeanDistance 0 rather than any DegenerateStudyArea error being
surfaced. -/
theorem C6_zero_area_infinite_density (ds : List Feature) (p f : Feature)
    (hA : area p = 0) (hn : ds ≠ [])
    (h : nearestNeighbor ds ⟨some (StudyAreaOpt.polyFeature p)⟩ =
      Except.ok f) :
    JsNum.div (JsNum.fin ((ds.length : ℕ) : ℝ))
      (JsNum.fin (area p * 0.000001)) = JsNum.inf ∧
    ∃ st, f.properties.nearestNeighborAnalysis = some st ∧
      st.expectedMeanDistance = JsNum.fin 0 := by
  have hlpos : (0 : ℝ) < (ds.length : ℝ) := by
    exact_mod_cast List.length_pos.mpr hn
  have hzero : area p * 0.000001 = 0 := by rw [hA]; norm_num
  constructor
  · rw [hzero]
    exact JsNum.div_fin_zero_pos hlpos
  · obtain ⟨g, l, hsa, hnd, hf⟩ :=
      nearestNeighbor_ok_inv ds ⟨some (StudyAreaOpt.polyFeature p)⟩ f h
    have hg : p = g := by simpa [resolveStudyArea] using hsa
    subst hg
    refine ⟨attachedStats ds p l, by rw [hf], ?_⟩
    simp only [attachedStats, calculateNearestNeighborStatistics]
    rw [hzero, List.length_map]
    rw [JsNum.div_fin_zero_pos hlpos, JsNum.sqrt_inf,
      JsNum.mul_fin_inf_pos (by norm_num : (0 : ℝ) < 2), JsNum.div_fin_inf]

theorem nearerOf_isSome (p : Point) (acc : Option Point) (c : Point) :
    (nearerOf p acc c).isSome := by
  cases acc with
  | none => rfl
  | some b =>
      simp only [nearerOf]
      split <;> rfl

theorem foldl_nearerOf_isSome (p : Point) :
    ∀ (cs : List Point) (acc : Option Point), acc.isSome →
      (List.foldl (nearerOf p) acc cs).isSome := by
  intro cs
  induction cs with
  | nil =>
      intro acc h
      simpa using h
  | cons c cs ih =>
      intro acc _
      rw [List.foldl_cons]
      exact ih _ (nearerOf_isSome p acc c)

theorem nearestPointAmong_isSome (p : Point) (cands : List Point)
    (h : cands ≠ []) : (nearestPointAmong p cands).isSome := by
  cases cands with
  | nil => exact absurd rfl h
  | cons c cs =>
      rw [nearestPointAmong, List.foldl_cons]
      exact foldl_nearerOf_isSome p cs _ (nearerOf_isSome p none c)

theorem foldl_nearerOf_min (p : Point) :
    ∀ (cs : List Point) (acc : Option Point) (q : Point),
      List.foldl (nearerOf p) acc cs = some q →
      (∀ b, acc = some b → distance p q ≤ distance p b) ∧
      (∀ c ∈ cs, distance p q ≤ distance p c) := by
  intro cs
  induction cs with
  | nil =>
      intro acc q h
      simp only [List.foldl_nil] at h
      refine ⟨fun b hb => ?_, by simp⟩
      rw [hb] at h
      cases h
      exact le_rfl
  | cons c cs ih =>
      intro acc q h
      rw [List.foldl_cons] at h
      obtain ⟨h1, h2⟩ := ih (nearerOf p acc c) q h
      refine ⟨?_, ?_⟩
      · intro b hb
        by_cases hlt : distance p c < distance p b
        · exact (h1 c (by rw [hb]; simp [nearerOf, hlt])).trans hlt.le
        · exact h1 b (by rw [hb]; simp [nearerOf, hlt])
      · intro x hx
        rcases List.mem_cons.mp hx with hxc | hxs
        · subst hxc
          cases acc with
          | none => exact h1 x (by simp [nearerOf])
          | some b =>
              by_cases hlt : distance p x < distance p b
              · exact h1 x (by simp [nearerOf, hlt])
              · exact (h1 b (by simp [nearerOf, hlt])).trans (not_lt.mp hlt)
        · exact h2 x hxs

theorem nearestPointAmong_min (p : Point) (cands : List Point) (q : Point)
    (h : nearestPointAmong p cands = some q) :
    ∀ c ∈ cands, distance p q ≤ distance p c :=
  (foldl_nearerOf_min p cands none q h).2

theorem ndOver_spec (pts : List Point) :
    ∀ is : List ℕ,
      (∀ i ∈ is, ∃ p, pts.get? i = some p ∧ pts.eraseIdx i ≠ []) →
      ∃ l, ndOver pts is = Except.ok l ∧ l.length = is.length ∧
        ∀ m i, is.get? m = some i →
          ∃ p q, pts.get? i = some p ∧
            nearestPointAmong p (pts.eraseIdx i) = some q ∧
            l.get? m = some (distance p q) := by
  intro is
  induction is with
  | nil =>
      intro _
      refine ⟨[], rfl, rfl, ?_⟩
      intro m i hm
      simp at hm
  | cons i is ih =>
      intro h
      obtain ⟨p, hp, hne⟩ := h i (List.mem_cons_self i is)
      obtain ⟨q, hq⟩ :=
        Option.isSome_iff_exists.mp (nearestPointAmong_isSome p _ hne)
      obtain ⟨l, hl, hlen, hspec⟩ :=
        ih (fun j hj => h j (List.mem_cons_of_mem i hj))
      refine ⟨distance p q :: l, ?_, by simp [hlen], ?_⟩
      · simp only [ndOver, hp, hq, hl]
      · intro m j hm
        cases m with
        | zero =>
            simp only [List.get?_cons_zero] at hm
            cases hm
            exact ⟨p, q, hp, hq, rfl⟩
        | succ m =>
            simp only [List.get?_cons_succ] at hm
            obtain ⟨p2, q2, hp2, hq2, hl2⟩ := hspec m j hm
            exact ⟨p2, q2, hp2, hq2, by simpa using hl2⟩

theorem nearestDistances_ok (pts : List Point) (h2 : 2 ≤ pts.length) :
    ∃ l, nearestDistances pts = Except.ok l ∧ l.length = pts.length ∧
      ∀ i p q, pts.get? i = some p →
        nearestPointAmong p (pts.eraseIdx i) = some q →
        l.get? i = some (distance p q) := by
  have hpre : ∀ i ∈ List.range pts.length,
      ∃ p, pts.get? i = some p ∧ pts.eraseIdx i ≠ [] := by
    intro i hi
    have hilt : i < pts.length := List.mem_range.mp hi
    refine ⟨pts.get ⟨i, hilt⟩, List.get?_eq_get hilt, ?_⟩
    apply List.length_pos.mp
    rw [List.length_eraseIdx_of_lt hilt]
    omega
  obtain ⟨l, hl, hlen, hspec⟩ := ndOver_spec pts (List.range pts.length) hpre
  refine ⟨l, hl, by simpa using hlen, ?_⟩
  intro i p q hp hq
  have hilt : i < pts.length := by
    obtain ⟨hw, _⟩ := List.get?_eq_some.mp hp
    exact hw
  obtain ⟨p2, q2, hp2, hq2, hl2⟩ := hspec i i (List.get?_range hilt)
  have hpp : p = p2 := Option.some.inj (hp.symm.trans hp2)
  subst hpp
  have hqq : q = q2 := Option.some.inj (hq.symm.trans hq2)
  subst hqq
  exact hl2

/-- C8: self-exclusion in the nearest-distance search is by object
identity, rendered positionally: the candidate set for position i is
the list with exactly position i removed, so a coordinate-identical
centroid at another position j stays a valid candidate, and the
nearest-neighbor distance recorded at position i is 0, contributing
zero to the observed mean. -/
theorem C8_identity_exclusion_zero_distance (ds : List Feature) (i j : ℕ)
    (pi pj : Point) (hij : i ≠ j)
    (hi : (ds.map centroidPt).get? i = some pi)
    (hj : (ds.map centroidPt).get? j = some pj)
    (hc : pi = pj) :
    pj ∈ (ds.map centroidPt).eraseIdx i ∧
    ∃ l, nearestDistances (ds.map centroidPt) = Except.ok l ∧
      l.get? i = some 0 := by
  have hilt : i < (ds.map centroidPt).length := by
    obtain ⟨hw, _⟩ := List.get?_eq_some.mp hi
    exact hw
  have hjlt : j < (ds.map centroidPt).length := by
    obtain ⟨hw, _⟩ := List.get?_eq_some.mp hj
    exact hw
  have h2 : 2 ≤ (ds.map centroidPt).length := by omega
  have hmem : pj ∈ (ds.map centroidPt).eraseIdx i := by
    rw [List.mem_eraseIdx_iff_getElem?]
    exact ⟨j, fun hji => hij hji.symm, by
      rw [← List.get?_eq_getElem?]
      exact hj⟩
  obtain ⟨l, hl, hlen, hspec⟩ := nearestDistances_ok (ds.map centroidPt) h2
  obtain ⟨q, hq⟩ := Option.isSome_iff_exists.mp
    (nearestPointAmong_isSome pi _ (List.ne_nil_of_mem hmem))
  have hd0 : distance pi q = 0 := by
    have hle := nearestPointAmong_min pi _ q hq pj hmem
    have hz : distance pi pj = 0 := by rw [hc, distance_self]
    exact le_antisymm (hz ▸ hle) (distance_nonneg pi q)
  refine ⟨hmem, l, hl, ?_⟩
  have := hspec i pi q hi hq
  rw [hd0] at this
  exact this

/-- C1: the default export statement of the module references the identifier
`circle`, which is declared nowhere in the file, while the function
actually implemented, `nearestNeighbor`, is a module-scope binding that
is never exported; evaluating the module therefore fails with a
ReferenceError instead of yielding a callable `nearestNeighbor`. -/
theorem C1_default_export_references_undeclared_circle :
    moduleEval = Except.error JsErr.referenceError ∧
    defaultExportIdent ∉ moduleScopeBindings ∧
    Ident.nearestNeighborId ∈ moduleScopeBindings :=
  ⟨rfl, by decide, by decide⟩

/-- C5: the study area is resolved three ways, each to one polygon
feature: absent gives the bounding-box polygon of the dataset, an ordered
4-number array is converted through the same bbox-to-polygon routine,
and a polygon feature passes through unchanged. -/
theorem C5_study_area_resolution (ds : List Feature) (x1 y1 x2 y2 : ℝ)
    (p : Feature) :
    resolveStudyArea ⟨none⟩ ds = StudyAreaVal.feat (bboxPolygon (bbox ds)) ∧
    resolveStudyArea ⟨some (StudyAreaOpt.numArray [x1, y1, x2, y2])⟩ ds =
      StudyAreaVal.feat (bboxPolygon ⟨x1, y1, x2, y2⟩) ∧
    resolveStudyArea ⟨some (StudyAreaOpt.polyFeature p)⟩ ds =
      StudyAreaVal.feat p := by
  refine ⟨rfl, ?_, rfl⟩
  simp [resolveStudyArea, listToBBox]

/-- C3: for an integer count n at least 1, a nonnegative observed mean
distance d and a study area of positive computed area a (square metres,
converted to square kilometres by multiplying with 1e-6), the statistics
record equals the closed-form Clark-Evans values, with
popDensity = n / areaSqKm, expectedMeanDistance = 1/(2*sqrt(popDensity)),
variance = 0.26136/sqrt(n*popDensity),
nearestNeighborIndex = d / expectedMeanDistance, and
zScore = (d - expectedMeanDistance) / variance. -/
theorem C3_clark_evans_formulas (n : ℕ) (d a : ℝ) (hn : 1 ≤ n)
    (hd : 0 ≤ d) (ha : 0 < a) :
    calculateNearestNeighborStatistics n (JsNum.fin d)
        (JsNum.fin (a * 0.000001)) =
      { observedMeanDistance := JsNum.fin d
        expectedMeanDistance :=
          JsNum.fin (1 / (2 * Real.sqrt ((n : ℝ) / (a * 0.000001))))
        nearestNeighborIndex :=
          JsNum.fin (d / (1 / (2 * Real.sqrt ((n : ℝ) / (a * 0.000001)))))
        numberOfPoints := n
        zScore :=
          JsNum.fin ((d - 1 / (2 * Real.sqrt ((n : ℝ) / (a * 0.000001)))) /
            (0.26136 / Real.sqrt ((n : ℝ) * ((n : ℝ) / (a * 0.000001))))) } := by
  have hA : (0 : ℝ) < a * 0.000001 := by positivity
  have hn0 : (0 : ℝ) < (n : ℝ) := by
    exact_mod_cast Nat.lt_of_lt_of_le Nat.zero_lt_one hn
  have hp : 0 < (n : ℝ) / (a * 0.000001) := div_pos hn0 hA
  have hs : 0 < Real.sqrt ((n : ℝ) / (a * 0.000001)) := Real.sqrt_pos.mpr hp
  have h2s : (2 : ℝ) * Real.sqrt ((n : ℝ) / (a * 0.000001)) ≠ 0 := by positivity
  have hexp : (1 : ℝ) / (2 * Real.sqrt ((n : ℝ) / (a * 0.000001))) ≠ 0 :=
    one_div_ne_zero h2s
  have hnp : 0 ≤ (n : ℝ) * ((n : ℝ) / (a * 0.000001)) := by positivity
  have hsnp : 0 < Real.sqrt ((n : ℝ) * ((n : ℝ) / (a * 0.000001))) :=
    Real.sqrt_pos.mpr (by positivity)
  have hvar : (0.26136 : ℝ) /
      Real.sqrt ((n : ℝ) * ((n : ℝ) / (a * 0.000001))) ≠ 0 := by positivity
  simp only [calculateNearestNeighborStatistics,
    JsNum.div_fin_fin hA.ne', JsNum.sqrt_fin hp.le, JsNum.mul_fin_fin,
    JsNum.div_fin_fin h2s, JsNum.sqrt_fin hnp, JsNum.div_fin_fin hsnp.ne',
    JsNum.div_fin_fin hvar, JsNum.div_fin_fin hexp, JsNum.sub_fin_fin]

/-- C7: whenever `nearestNeighbor` returns a result, the numberOfPoints
field of the attached statistics equals the number of input features,
whatever the geometry of each feature, since every feature contributes
exactly one centroid. -/
theorem C7_numberOfPoints_eq_feature_count (ds : List Feature)
    (opts : Options) (f : Feature)
    (h : nearestNeighbor ds opts = Except.ok f) :
    ∃ st, f.properties.nearestNeighborAnalysis = some st ∧
      st.numberOfPoints = ds.length := by
  obtain ⟨g, l, hsa, hnd, hf⟩ := nearestNeighbor_ok_inv ds opts f h
  refine ⟨attachedStats ds g l, by rw [hf], ?_⟩
  simp [attachedStats, calculateNearestNeighborStatistics]

/-- C10: when the caller passes a polygon feature as options.studyArea,
the returned feature is that feature with exactly the
nearestNeighborAnalysis property replaced (the source writes it in
place and returns the same object; the embedding renders the write by
state passing), overwriting any previous value while leaving the
geometry and every other property key unchanged. -/
theorem C10_study_area_mutation (ds : List Feature) (p f : Feature)
    (h : nearestNeighbor ds ⟨some (StudyAreaOpt.polyFeature p)⟩ =
      Except.ok f) :
    ∃ st,
      f = { p with
            properties :=
              { p.properties with nearestNeighborAnalysis := some st } } ∧
      f.geometry = p.geometry ∧
      f.properties.rest = p.properties.rest := by
  obtain ⟨g, l, hsa, hnd, hf⟩ :=
    nearestNeighbor_ok_inv ds ⟨some (StudyAreaOpt.polyFeature p)⟩ f h
  have hg : p = g := by simpa [resolveStudyArea] using hsa
  subst hg
  exact ⟨attachedStats ds p l, hf, by rw [hf], by rw [hf]⟩

/-- C9: the computation is deterministic across repeated invocation.
The first call hands back the study-area feature with the statistics
attached; invoking the function again on the same dataset with that
very feature (the state the object of the caller is in after the first call)
returns the identical feature, so the five statistics of the two calls
are bit-identical. -/
theorem C9_repeat_invocation_identical_statistics (ds : List Feature)
    (p f : Feature)
    (h : nearestNeighbor ds ⟨some (StudyAreaOpt.polyFeature p)⟩ =
      Except.ok f) :
    nearestNeighbor ds ⟨some (StudyAreaOpt.polyFeature f)⟩ =
      Except.ok f := by
  obtain ⟨g, l, hsa, hnd, hf⟩ :=
    nearestNeighbor_ok_inv ds ⟨some (StudyAreaOpt.polyFeature p)⟩ f h
  have hg : p = g := by simpa [resolveStudyArea] using hsa
  subst hg
  subst hf
  rw [nearestNeighbor_poly_eq ds _ l hnd]
  cases p with
  | mk pg pp =>
      cases pp with
      | mk pn pr => rfl

/-- Witness for C3 at n = 4, d = 1, a = 1000000 square metres (1 square
kilometre). -/
theorem C3_clark_evans_formulas_witness :
    (1 ≤ 4) ∧ ((0 : ℝ) ≤ 1) ∧ ((0 : ℝ) < 1000000) ∧
    calculateNearestNeighborStatistics 4 (JsNum.fin 1)
        (JsNum.fin (1000000 * 0.000001)) =
      { observedMeanDistance := JsNum.fin 1
        expectedMeanDistance :=
          JsNum.fin (1 / (2 * Real.sqrt (((4 : ℕ) : ℝ) / (1000000 * 0.000001))))
        nearestNeighborIndex :=
          JsNum.fin ((1 : ℝ) /
            (1 / (2 * Real.sqrt (((4 : ℕ) : ℝ) / (1000000 * 0.000001)))))
        numberOfPoints := 4
        zScore :=
          JsNum.fin (((1 : ℝ) -
              1 / (2 * Real.sqrt (((4 : ℕ) : ℝ) / (1000000 * 0.000001)))) /
            (0.26136 /
              Real.sqrt (((4 : ℕ) : ℝ) *
                (((4 : ℕ) : ℝ) / (1000000 * 0.000001))))) } :=
  ⟨by norm_num, by norm_num, by norm_num,
    C3_clark_evans_formulas 4 1 1000000 (by norm_num) (by norm_num)
      (by norm_num)⟩

/-- Witness for C6 at the two-point dataset with the zero-area study
area. -/
theorem C6_zero_area_infinite_density_witness :
    area degenPoly = 0 ∧
    twoPts ≠ [] ∧
    nearestNeighbor twoPts ⟨some (StudyAreaOpt.polyFeature degenPoly)⟩ =
      Except.ok degenResult ∧
    (JsNum.div (JsNum.fin ((twoPts.length : ℕ) : ℝ))
        (JsNum.fin (area degenPoly * 0.000001)) = JsNum.inf ∧
     ∃ st, degenResult.properties.nearestNeighborAnalysis = some st ∧
       st.expectedMeanDistance = JsNum.fin 0) :=
  ⟨area_degen, by simp [twoPts], eval_degen,
    C6_zero_area_infinite_density twoPts degenPoly degenResult area_degen
      (by simp [twoPts]) eval_degen⟩

/-- Witness for C7 at the unit-square dataset. -/
theorem C7_numberOfPoints_eq_feature_count_witness :
    nearestNeighbor fourPts ⟨none⟩ = Except.ok unitResult ∧
    ∃ st, unitResult.properties.nearestNeighborAnalysis = some st ∧
      st.numberOfPoints = fourPts.length :=
  ⟨eval_unitSquare,
    C7_numberOfPoints_eq_feature_count fourPts ⟨none⟩ unitResult
      eval_unitSquare⟩

/-- Witness for C8 at a two-element dataset whose features have the
identical centroid (0,0). -/
theorem C8_identity_exclusion_zero_distance_witness :
    (0 : ℕ) ≠ 1 ∧
    (([ptFeature p00, ptFeature p00] : List Feature).map centroidPt).get? 0 =
      some p00 ∧
    (([ptFeature p00, ptFeature p00] : List Feature).map centroidPt).get? 1 =
      some p00 ∧
    (p00 ∈
      (([ptFeature p00, ptFeature p00] : List Feature).map
        centroidPt).eraseIdx 0 ∧
     ∃ l, nearestDistances
        (([ptFeature p00, ptFeature p00] : List Feature).map centroidPt) =
          Except.ok l ∧
        l.get? 0 = some 0) := by
  have hm : (([ptFeature p00, ptFeature p00] : List Feature).map centroidPt) =
      [p00, p00] := by
    simp [List.map_cons, List.map_nil, centroidPt_ptFeature]
  refine ⟨by decide, by rw [hm]; rfl, by rw [hm]; rfl, ?_⟩
  exact C8_identity_exclusion_zero_distance [ptFeature p00, ptFeature p00]
    0 1 p00 p00 (by decide) (by rw [hm]; rfl) (by rw [hm]; rfl) rfl

/-- Witness for C9 at the unit-square dataset with the explicit
unit-square study area. -/
theorem C9_repeat_invocation_identical_statistics_witness :
    nearestNeighbor fourPts ⟨some (StudyAreaOpt.polyFeature unitPoly)⟩ =
      Except.ok unitResult ∧
    nearestNeighbor fourPts ⟨some (StudyAreaOpt.polyFeature unitResult)⟩ =
      Except.ok unitResult :=
  ⟨eval_unitSquare_poly,
    C9_repeat_invocation_identical_statistics fourPts unitPoly unitResult
      eval_unitSquare_poly⟩

/-- Witness for C10 at the unit-square dataset with the explicit
unit-square study area. -/
theorem C10_study_area_mutation_witness :
    nearestNeighbor fourPts ⟨some (StudyAreaOpt.polyFeature unitPoly)⟩ =
      Except.ok unitResult ∧
    ∃ st,
      unitResult = { unitPoly with
        properties :=
          { unitPoly.properties with
            nearestNeighborAnalysis := some st } } ∧
      unitResult.geometry = unitPoly.geometry ∧
      unitResult.properties.rest = unitPoly.properties.rest :=
  ⟨eval_unitSquare_poly,
    C10_study_area_mutation fourPts unitPoly unitResult
      eval_unitSquare_poly⟩

end TurfNN
